import Mathlib

/-!
Formal model of the ProjectDashBoard data-processing pipeline
(`data_processing.py`, `callbacks.py`, `project_dashboard.py`).

Tabular cells that pandas can hold as NaN/NaT/None are modelled as
`Option` values; a pandas comparison against NaN follows the pandas
semantics (`NaT < now` is false, `NaN != s` is true, `NaN == s` is
false).  Timestamps are modelled as calendar dates (year, month, day),
which is all the code ever inspects (ordering, `.dt.month`, day
differences).  Floating-point percentages are modelled over `ℚ`:
`Series.round(2)` becomes rounding of `q * 100` to an integer
followed by division by `100` (the half-way tie rule is irrelevant to
every property below).  Division by zero, which in pandas produces a
NaN/inf artifact for `completed / total` when `total = 0`, is the Lean
convention `q / 0 = 0`; no property below reads `progress` when
`total_tasks = 0`.
-/

namespace ProjectDashboard

/-- Calendar timestamp, the granularity the dashboard code inspects. -/
structure DateTime where
  year : Int
  month : Nat
  day : Nat
deriving DecidableEq, Repr

/-- Strict ordering of timestamps (pandas `Timestamp` comparison). -/
def DateTime.ltb (a b : DateTime) : Bool :=
  decide (a.year < b.year) ||
    (decide (a.year = b.year) &&
      (decide (a.month < b.month) ||
        (decide (a.month = b.month) && decide (a.day < b.day))))

/-- Unified row: one task-level CSV row after the left join with the
project-level CSV (`load_and_process_data`).  Cells that can be NaN in
pandas are `Option`s. -/
structure Row where
  project_id : Option String
  project_name : Option String
  process : Option String
  line : Option String
  task_id : Option String
  task_name : Option String
  task_start_date : Option DateTime
  task_finish_date : Option DateTime
  task_status : Option String
  task_milestone : Option String
  project_path : Option String
  ganttchart_path : Option String
deriving DecidableEq, Repr

/-- The distinguished "done" status value used throughout the code. -/
def doneStatus : String := "完了"

/-- Python `str.lower()`, modelled over the character sequence. -/
def strToLower (s : String) : String := String.mk (s.data.map Char.toLower)

/-- Python `str.endswith(t)`, modelled over the character sequence. -/
def strEndsWith (s t : String) : Bool :=
  s.data.reverse.take t.data.length == t.data.reverse

/-- Python `c in s` for a single character, and the single-character
case of `Series.str.contains`, modelled over the character sequence. -/
def strContains (s : String) (c : Char) : Bool := s.data.contains c

/-- Test fixture: a unified row with the given identifier, task
identifier, status, finish date and milestone marker. -/
def mkRow (pid : Option String) (tid : Option String)
    (status : Option String) (fin : Option DateTime)
    (mile : Option String) : Row :=
  { project_id := pid, project_name := some "n", process := some "p",
    line := some "l", task_id := tid, task_name := some "t",
    task_start_date := some ⟨2025, 1, 1⟩, task_finish_date := fin,
    task_status := status, task_milestone := mile,
    project_path := some "/pp", ganttchart_path := some "/gg" }

/- Color palette, from the COLORS constant of `project_dashboard.py`. -/

def colorSuccess : String := "#50ff96"

def colorWarning : String := "#ffeb45"

def colorDanger : String := "#ff5f5f"

def colorInfo : String := "#60cdff"

def colorNeutral : String := "#c8c8c8"

/-- `get_status_color(progress, has_delay)` from `data_processing.py`
lines 154-173 (identical copy in `project_dashboard.py` 470-480). -/
def get_status_color (progress : ℚ) (has_delay : Bool) : String :=
  if has_delay then colorDanger
  else if progress ≥ 90 then colorSuccess
  else if progress ≥ 70 then colorInfo
  else if progress ≥ 50 then colorWarning
  else colorNeutral

/-- `check_delays(df)` from `data_processing.py` lines 82-96: rows whose
finish date is strictly before the wall clock `now` and whose status is
not the "done" value.  A NaT finish date compares false; a NaN status
is unequal to the "done" string, exactly as in pandas. -/
def check_delays (rows : List Row) (now : DateTime) : List Row :=
  rows.filter (fun r =>
    (match r.task_finish_date with
      | some d => DateTime.ltb d now
      | none => false)
    && !(r.task_status == some doneStatus))

/-- `get_delayed_projects_count(df)` from `data_processing.py` lines
99-111: `len(delayed['project_id'].unique())`.  pandas `unique`
collapses all NaN keys into one value, hence the count is over the
`Option String` cell values, the absent value included. -/
def get_delayed_projects_count (rows : List Row) (now : DateTime) : Nat :=
  ((check_delays rows now).map Row.project_id).dedup.length

/-- Rounding to two decimal places (`Series.round(2)` on the progress
percentage), modelled over `ℚ`. -/
def round2 (q : ℚ) : ℚ := ((round (q * 100) : ℤ) : ℚ) / 100

/-- pandas GroupBy aggregation "first": the first non-NA value of the
column within the group (`GroupBy.first` skips nulls), `none` when every
value is NA. -/
def firstNonNull {α : Type} (l : List (Option α)) : Option α :=
  (l.filterMap id).head?

/-- pandas GroupBy aggregation "min" on a datetime column: minimum over
the non-NaT values, NaT when there is none. -/
def minDate (l : List (Option DateTime)) : Option DateTime :=
  (l.filterMap id).foldl
    (fun acc d => match acc with
      | none => some d
      | some m => some (if DateTime.ltb d m then d else m)) none

/-- pandas GroupBy aggregation "max" on a datetime column. -/
def maxDate (l : List (Option DateTime)) : Option DateTime :=
  (l.filterMap id).foldl
    (fun acc d => match acc with
      | none => some d
      | some m => some (if DateTime.ltb m d then d else m)) none

/-- Days since the civil epoch 1970-01-01, the standard
days-from-civil-date computation; `(end - start).dt.days` is the
difference of these numbers. -/
def DateTime.toDays (dt : DateTime) : Int :=
  let y : Int := if dt.month ≤ 2 then dt.year - 1 else dt.year
  let era : Int := (if 0 ≤ y then y else y - 399) / 400
  let yoe : Int := y - era * 400
  let m : Int := dt.month
  let doy : Int := (153 * (m + (if 2 < m then -3 else 9)) + 2) / 5 + dt.day - 1
  let doe : Int := yoe * 365 + yoe / 4 - yoe / 100 + doy
  era * 146097 + doe - 719468

/-- One project summary row of `calculate_progress`
(`data_processing.py` lines 114-151). -/
structure Summary where
  project_id : String
  project_name : Option String
  process : Option String
  line : Option String
  total_tasks : Nat
  completed_tasks : Nat
  milestone_count : Nat
  start_date : Option DateTime
  end_date : Option DateTime
  project_path : Option String
  ganttchart_path : Option String
  progress : ℚ
  duration : Option Int
deriving DecidableEq, Repr

/-- One group's aggregation inside `calculate_progress`: the group of
`df.groupby('project_id')` for key `k` is the rows whose `project_id`
cell equals `k` (pandas drops NaN keys), aggregated column by column as
the `agg` dictionary does.  Note `'task_id': 'count'` counts the
non-null `task_id` cells of the group, while the completed-task lambda
`sum(df.loc[x.index, 'task_status'] == '完了')` counts over all rows of
the group, and `x.str.contains('○').sum()` counts the non-null
milestone cells containing the marker character. -/
def summarizeGroup (k : String) (g : List Row) : Summary :=
  let total_tasks := (g.filterMap Row.task_id).length
  let completed := (g.filter (fun r => r.task_status == some doneStatus)).length
  { project_id := k
    project_name := firstNonNull (g.map Row.project_name)
    process := firstNonNull (g.map Row.process)
    line := firstNonNull (g.map Row.line)
    total_tasks := total_tasks
    completed_tasks := completed
    milestone_count := (g.filter (fun r => match r.task_milestone with
      | some s => strContains s '○'
      | none => false)).length
    start_date := minDate (g.map Row.task_start_date)
    end_date := maxDate (g.map Row.task_finish_date)
    project_path := firstNonNull (g.map Row.project_path)
    ganttchart_path := firstNonNull (g.map Row.ganttchart_path)
    progress := round2 ((completed : ℚ) / (total_tasks : ℚ) * 100)
    duration :=
      match maxDate (g.map Row.task_finish_date), minDate (g.map Row.task_start_date) with
      | some e, some s => some (e.toDays - s.toDays)
      | _, _ => none }

/-- The aggregation of the group with key `k`. -/
def summarize (rows : List Row) (k : String) : Summary :=
  summarizeGroup k (rows.filter (fun r => r.project_id == some k))

/-- Group keys of `df.groupby('project_id')`: the distinct non-NaN
project identifiers, sorted ascending (pandas groups with
`sort=True`). -/
def sortedKeys (rows : List Row) : List String :=
  List.insertionSort (· ≤ ·) (rows.filterMap Row.project_id).dedup

/-- A pandas DataFrame as the pipeline passes it around: its rows plus
whether the project-level path columns (`project_path`,
`ganttchart_path`) are present.  `load_and_process_data` returns the
task-level frame without those columns (`joined = false`) when the
projects file is missing or lacks the chart-path column. -/
structure Frame where
  rows : List Row
  joined : Bool
deriving DecidableEq, Repr

/-- The milestone column of a loaded frame is the all-NaN float64
column exactly when the frame is nonempty and every milestone cell is
absent (`read_csv` types a column with no value as float64); the
aggregation's `.str` accessor raises an `AttributeError` on such a
column as soon as one group runs its lambda.  (When no group exists the
lambda never runs, but the aggregation output is empty either way.) -/
def milestoneColumnAllNaN (rows : List Row) : Bool :=
  !rows.isEmpty && rows.all (fun r => r.task_milestone == none)

/-- `calculate_progress(df)` from `data_processing.py` lines 114-151
(identical copy in `project_dashboard.py` 439-468).  Two failure paths
end in the surrounding `except`, which returns an empty DataFrame:
when the frame lacks the project-level path columns the `agg`
dictionary raises a `KeyError`, and when the milestone column holds no
string at all (nonempty, all cells NaN, hence float dtype) the
milestone lambda's `.str` accessor raises an `AttributeError`. -/
def calculate_progress (f : Frame) : List Summary :=
  if f.joined && !milestoneColumnAllNaN f.rows then
    (sortedKeys f.rows).map (summarize f.rows)
  else []

/-- On the successful path the aggregation is the per-key summary
map. -/
theorem calculate_progress_eq_of_mile {rows : List Row}
    (h : milestoneColumnAllNaN rows = false) :
    calculate_progress ⟨rows, true⟩
      = (sortedKeys rows).map (summarize rows) := by
  rw [calculate_progress]
  simp [h]

/-- Any member of the aggregation output is a per-key summary. -/
theorem mem_calculate_progress {rows : List Row} {s : Summary}
    (hs : s ∈ calculate_progress ⟨rows, true⟩) :
    s ∈ (sortedKeys rows).map (summarize rows) := by
  rw [calculate_progress] at hs
  split at hs
  · exact hs
  · cases hs

/-- Membership in the sorted group-key list is existence of a row
carrying that identifier. -/
theorem mem_sortedKeys (rows : List Row) (k : String) :
    k ∈ sortedKeys rows ↔ ∃ r ∈ rows, r.project_id = some k := by
  unfold sortedKeys
  rw [List.mem_insertionSort, List.mem_dedup, List.mem_filterMap]

/-- The sorted group-key list has no duplicate keys. -/
theorem sortedKeys_nodup (rows : List Row) : (sortedKeys rows).Nodup :=
  (List.perm_insertionSort _ _).nodup_iff.mpr (List.nodup_dedup _)

/-- The sorted group-key list is sorted ascending. -/
theorem sortedKeys_sorted (rows : List Row) :
    (sortedKeys rows).Sorted (· ≤ ·) :=
  List.sorted_insertionSort _ _

/-- Claim C2: `get_status_color` is a pure function of its two arguments
returning danger whenever the delay flag is set, else success exactly on
percent ≥ 90, info on 70 ≤ percent < 90, warning on 50 ≤ percent < 70
and neutral below 50; every band boundary is inclusive on its lower end
(90 is success, 70 is info, 50 is warning). -/
theorem get_status_color_spec :
    (∀ (p : ℚ) (d : Bool),
      get_status_color p d =
        if d then colorDanger
        else if 90 ≤ p then colorSuccess
        else if 70 ≤ p then colorInfo
        else if 50 ≤ p then colorWarning
        else colorNeutral)
    ∧ get_status_color 90 false = colorSuccess
    ∧ get_status_color 70 false = colorInfo
    ∧ get_status_color 50 false = colorWarning
    ∧ (∀ p : ℚ, get_status_color p true = colorDanger) := by
  refine ⟨fun p d => rfl, by norm_num [get_status_color], by norm_num [get_status_color],
    by norm_num [get_status_color], fun p => rfl⟩

/-- Dropping the rows with an absent project identifier changes neither
the identifiers that `groupby` extracts ... -/
theorem filterMap_id_filter_isSome (l : List Row) :
    (l.filter (fun r => r.project_id.isSome)).filterMap Row.project_id
      = l.filterMap Row.project_id := by
  induction l with
  | nil => rfl
  | cons a t ih =>
    cases h : a.project_id with
    | none => simp [List.filter_cons, List.filterMap_cons, h, ih]
    | some v => simp [List.filter_cons, List.filterMap_cons, h, ih]

/-- ... nor the group belonging to any particular identifier. -/
theorem group_filter_isSome (l : List Row) (k : String) :
    (l.filter (fun r => r.project_id.isSome)).filter
        (fun r => r.project_id == some k)
      = l.filter (fun r => r.project_id == some k) := by
  rw [List.filter_filter]
  apply List.filter_congr
  intro r _
  cases h : r.project_id <;> simp [h]

/-- Claim C10 is false as stated: a valid nonempty row set with a
present identifier and no milestone string at all makes the
aggregation's `.str` accessor raise, the caught exception yields the
empty summary list, and no summary row for "P1" is produced. -/
theorem summary_keys_counterexample :
    calculate_progress
        ⟨[{ project_id := some "P1", project_name := some "alpha",
            process := some "dev", line := some "L1",
            task_id := some "T1", task_name := some "t",
            task_start_date := some ⟨2025, 1, 1⟩,
            task_finish_date := some ⟨2025, 2, 1⟩,
            task_status := some "完了", task_milestone := none,
            project_path := some "/p", ganttchart_path := some "/g" }],
          true⟩ = []
    ∧ [{ project_id := some "P1", project_name := some "alpha",
            process := some "dev", line := some "L1",
            task_id := some "T1", task_name := some "t",
            task_start_date := some ⟨2025, 1, 1⟩,
            task_finish_date := some ⟨2025, 2, 1⟩,
            task_status := some "完了", task_milestone := none,
            project_path := some "/p",
            ganttchart_path := some "/g" }].map Row.project_id
        = [some "P1"] := by
  decide

/-- Claim C10 (amended): when the aggregation succeeds — the row set is
empty or carries at least one present milestone cell, so the milestone
column is not the all-NaN float column whose `.str` accessor raises —
the summary list of `calculate_progress` has exactly one row per
distinct non-absent project identifier occurring in the input, in
ascending identifier order, and rows whose project identifier is absent
contribute to no summary row: every summary is the aggregation of its
group among the identifier-bearing rows alone. -/
theorem summary_keys_spec (rows : List Row)
    (hmile : milestoneColumnAllNaN rows = false) :
    ((calculate_progress ⟨rows, true⟩).map Summary.project_id).Nodup
    ∧ ((calculate_progress ⟨rows, true⟩).map Summary.project_id).Sorted (· ≤ ·)
    ∧ (∀ k : String,
        k ∈ (calculate_progress ⟨rows, true⟩).map Summary.project_id ↔
          ∃ r ∈ rows, r.project_id = some k)
    ∧ ∀ s ∈ calculate_progress ⟨rows, true⟩,
        s = summarize (rows.filter (fun r => r.project_id.isSome))
              s.project_id := by
  have hproj : ∀ (l : List Row) (k : String), (summarize l k).project_id = k :=
    fun l k => rfl
  have hmap :
      (calculate_progress ⟨rows, true⟩).map Summary.project_id
        = sortedKeys rows := by
    rw [calculate_progress_eq_of_mile hmile, List.map_map]
    calc (sortedKeys rows).map (Summary.project_id ∘ summarize rows)
        = (sortedKeys rows).map id :=
          List.map_congr_left (fun k _ => hproj rows k)
      _ = sortedKeys rows := List.map_id _
  refine ⟨?_, ?_, ?_, ?_⟩
  · rw [hmap]; exact sortedKeys_nodup rows
  · rw [hmap]; exact sortedKeys_sorted rows
  · intro k; rw [hmap]; exact mem_sortedKeys rows k
  · intro s hs
    obtain ⟨k, hk, hsum⟩ := List.mem_map.mp (mem_calculate_progress hs)
    subst hsum
    rw [hproj]
    unfold summarize
    rw [group_filter_isSome]

/-- Witness for the amended claim C10 at a concrete input holding a
milestone cell, two identifier-bearing rows and one identifier-less
row. -/
theorem summary_keys_spec_witness :
    ((calculate_progress
        ⟨[mkRow (some "P2") (some "T2") (some "完了") (some ⟨2025, 3, 1⟩)
            (some "○"),
          mkRow none (some "T0") (some "作業中") none none,
          mkRow (some "P1") (some "T1") (some "完了") (some ⟨2025, 2, 1⟩)
            none],
          true⟩).map Summary.project_id).Nodup
    ∧ ((calculate_progress
        ⟨[mkRow (some "P2") (some "T2") (some "完了") (some ⟨2025, 3, 1⟩)
            (some "○"),
          mkRow none (some "T0") (some "作業中") none none,
          mkRow (some "P1") (some "T1") (some "完了") (some ⟨2025, 2, 1⟩)
            none],
          true⟩).map Summary.project_id).Sorted (· ≤ ·)
    ∧ (∀ k : String,
        k ∈ (calculate_progress
          ⟨[mkRow (some "P2") (some "T2") (some "完了") (some ⟨2025, 3, 1⟩)
              (some "○"),
            mkRow none (some "T0") (some "作業中") none none,
            mkRow (some "P1") (some "T1") (some "完了") (some ⟨2025, 2, 1⟩)
              none],
            true⟩).map Summary.project_id ↔
          ∃ r ∈ [mkRow (some "P2") (some "T2") (some "完了")
              (some ⟨2025, 3, 1⟩) (some "○"),
            mkRow none (some "T0") (some "作業中") none none,
            mkRow (some "P1") (some "T1") (some "完了") (some ⟨2025, 2, 1⟩)
              none], r.project_id = some k)
    ∧ ∀ s ∈ calculate_progress
        ⟨[mkRow (some "P2") (some "T2") (some "完了") (some ⟨2025, 3, 1⟩)
            (some "○"),
          mkRow none (some "T0") (some "作業中") none none,
          mkRow (some "P1") (some "T1") (some "完了") (some ⟨2025, 2, 1⟩)
            none],
          true⟩,
        s = summarize
              ([mkRow (some "P2") (some "T2") (some "完了")
                  (some ⟨2025, 3, 1⟩) (some "○"),
                mkRow none (some "T0") (some "作業中") none none,
                mkRow (some "P1") (some "T1") (some "完了")
                  (some ⟨2025, 2, 1⟩) none].filter
                (fun r => r.project_id.isSome))
              s.project_id :=
  summary_keys_spec
    [mkRow (some "P2") (some "T2") (some "完了") (some ⟨2025, 3, 1⟩)
        (some "○"),
      mkRow none (some "T0") (some "作業中") none none,
      mkRow (some "P1") (some "T1") (some "完了") (some ⟨2025, 2, 1⟩) none]
    (by decide)

/-- A `filterMap` whose function succeeds on every element keeps the
length of the list. -/
theorem length_filterMap_of_isSome {α β : Type} (f : α → Option β)
    (l : List α) (h : ∀ x ∈ l, (f x).isSome) :
    (l.filterMap f).length = l.length := by
  induction l with
  | nil => rfl
  | cons a t ih =>
    obtain ⟨v, hv⟩ := Option.isSome_iff_exists.mp (h a (List.mem_cons_self a t))
    rw [List.filterMap_cons, hv]
    simp [ih (fun x hx => h x (List.mem_cons_of_mem a hx))]

/-- Summing an indicator of one key over a duplicate-free key list
contributes exactly one. -/
theorem sum_ite_count {α : Type} [DecidableEq α] (keys : List α) (k₀ : α)
    (a : α → Nat) (hnd : keys.Nodup) (hmem : k₀ ∈ keys) :
    (keys.map (fun k => (if k = k₀ then 1 else 0) + a k)).sum
      = 1 + (keys.map a).sum := by
  induction keys with
  | nil => cases hmem
  | cons k ks ih =>
    rcases List.mem_cons.mp hmem with h | h
    · subst h
      have hnot : ∀ k' ∈ ks, ¬(k' = k₀) := fun k' hk' e =>
        (List.nodup_cons.mp hnd).1 (e ▸ hk')
      have hks : ks.map (fun k' => (if k' = k₀ then 1 else 0) + a k')
          = ks.map a :=
        List.map_congr_left (fun k' hk' => by simp [hnot k' hk'])
      simp only [List.map_cons, List.sum_cons, hks, eq_self_iff_true, if_true]
      omega
    · have hk : ¬(k = k₀) := fun e =>
        (List.nodup_cons.mp hnd).1 (e ▸ h)
      have := ih (List.nodup_cons.mp hnd).2 h
      simp only [List.map_cons, List.sum_cons, if_neg hk, this]
      omega

/-- A duplicate-free key list covering every row partitions the rows:
the group sizes sum to the number of rows. -/
theorem sum_group_sizes (keys : List String) (l : List Row)
    (hnd : keys.Nodup)
    (hcov : ∀ r ∈ l, ∃ k ∈ keys, r.project_id = some k) :
    (keys.map
        (fun k => (l.filter (fun r => r.project_id == some k)).length)).sum
      = l.length := by
  induction l with
  | nil => simp
  | cons r t ih =>
    obtain ⟨k₀, hk₀mem, hk₀⟩ := hcov r (List.mem_cons_self r t)
    have step : ∀ k : String,
        ((r :: t).filter (fun r' => r'.project_id == some k)).length
          = (if k = k₀ then 1 else 0)
            + (t.filter (fun r' => r'.project_id == some k)).length := by
      intro k
      by_cases h : k = k₀
      · subst h
        rw [List.filter_cons_of_pos (by simp [hk₀])]
        simp only [List.length_cons, eq_self_iff_true, if_true]
        omega
      · rw [List.filter_cons_of_neg
          (by simp only [hk₀, beq_iff_eq, Option.some.injEq]
              exact fun e => h e.symm)]
        simp only [if_neg h]
        omega
    rw [List.map_congr_left (fun k _ => step k),
      sum_ite_count keys k₀ _ hnd hk₀mem,
      ih (fun r' hr' => hcov r' (List.mem_cons_of_mem r hr'))]
    simp [Nat.add_comm]

/-- Claim C3 is false as stated: a valid unified row set of two rows
with every milestone cell absent makes the milestone column float
dtype, the aggregation's `.str` accessor raises, the caught exception
yields the empty summary list, and the total-task sum is 0, not 2. -/
theorem total_tasks_sum_counterexample :
    ((calculate_progress
        ⟨[mkRow (some "P1") (some "T1") (some "完了") (some ⟨2025, 2, 1⟩)
            none,
          mkRow (some "P1") (some "T2") (some "作業中") (some ⟨2025, 3, 1⟩)
            none],
          true⟩).map Summary.total_tasks).sum = 0
    ∧ [mkRow (some "P1") (some "T1") (some "完了") (some ⟨2025, 2, 1⟩)
          none,
        mkRow (some "P1") (some "T2") (some "作業中") (some ⟨2025, 3, 1⟩)
          none].length = 2 := by
  decide

/-- Claim C3 (amended): for every unified row set conforming to the
data model (each row carries its project identifier and its task
identifier) on which the aggregation succeeds — the set is empty or
carries at least one present milestone cell, so the `.str` accessor of
the milestone lambda does not raise — the `total_tasks` fields of the
summaries that `calculate_progress` produces sum to the number of
unified rows. -/
theorem total_tasks_sum_eq_row_count (rows : List Row)
    (hval : ∀ r ∈ rows, r.project_id.isSome ∧ r.task_id.isSome)
    (hmile : milestoneColumnAllNaN rows = false) :
    ((calculate_progress ⟨rows, true⟩).map Summary.total_tasks).sum
      = rows.length := by
  rw [calculate_progress_eq_of_mile hmile, List.map_map]
  have hsz : ∀ k ∈ sortedKeys rows,
      (Summary.total_tasks ∘ summarize rows) k
        = (rows.filter (fun r => r.project_id == some k)).length := by
    intro k _
    show ((rows.filter (fun r => r.project_id == some k)).filterMap
        Row.task_id).length = _
    exact length_filterMap_of_isSome Row.task_id _
      (fun r hr => (hval r (List.mem_of_mem_filter hr)).2)
  rw [List.map_congr_left hsz]
  apply sum_group_sizes _ _ (sortedKeys_nodup rows)
  intro r hr
  obtain ⟨v, hv⟩ := Option.isSome_iff_exists.mp (hval r hr).1
  exact ⟨v, (mem_sortedKeys rows v).mpr ⟨r, hr, hv⟩, hv⟩

/-- Witness for claim C3 at a concrete input: two projects, three task
rows, the summary totals sum to three. -/
theorem total_tasks_sum_eq_row_count_witness :
    ((calculate_progress
        ⟨[{ project_id := some "P1", project_name := some "alpha",
            process := some "dev", line := some "L1",
            task_id := some "T1", task_name := some "t",
            task_start_date := some ⟨2025, 1, 1⟩,
            task_finish_date := some ⟨2025, 2, 1⟩,
            task_status := some "完了", task_milestone := some "○",
            project_path := some "/p1", ganttchart_path := some "/g1" },
          { project_id := some "P2", project_name := some "beta",
            process := some "dev", line := some "L2",
            task_id := some "T2", task_name := some "u",
            task_start_date := some ⟨2025, 1, 5⟩,
            task_finish_date := some ⟨2025, 3, 1⟩,
            task_status := some "進行中", task_milestone := none,
            project_path := some "/p2", ganttchart_path := none },
          { project_id := some "P1", project_name := some "alpha",
            process := some "dev", line := some "L1",
            task_id := some "T3", task_name := some "v",
            task_start_date := none, task_finish_date := none,
            task_status := none, task_milestone := none,
            project_path := some "/p1", ganttchart_path := some "/g1" }],
          true⟩).map Summary.total_tasks).sum = 3 :=
  total_tasks_sum_eq_row_count _ (by decide) (by decide)

/-- When every row carries a project identifier, the identifier column
is the identifier list wrapped in `some`. -/
theorem map_pid_eq_map_some (l : List Row)
    (h : ∀ r ∈ l, r.project_id.isSome) :
    l.map Row.project_id
      = (l.filterMap Row.project_id).map (fun v => some v) := by
  induction l with
  | nil => rfl
  | cons a t ih =>
    obtain ⟨v, hv⟩ := Option.isSome_iff_exists.mp (h a (List.mem_cons_self a t))
    simp [List.filterMap_cons, hv,
      ih (fun r hr => h r (List.mem_cons_of_mem a hr))]

/-- Wrapping a list in `some` neither merges nor splits duplicates. -/
theorem dedup_length_map_some {α : Type} [DecidableEq α] (l : List α) :
    (l.map (fun x => (some x : Option α))).dedup.length = l.dedup.length := by
  have h : (l.map (fun x => (some x : Option α))).dedup
      = l.dedup.map (fun x => (some x : Option α)) :=
    List.dedup_map_of_injective (fun _ _ h => Option.some.inj h) l
  rw [h]
  exact List.length_map _ _

/-- Claim C1: for every unified row set conforming to the data model
(each row carries its project identifier) and every wall-clock `now`,
`check_delays` returns exactly the rows whose finish date is strictly
before `now` and whose status is not the "done" value, and
`get_delayed_projects_count` is the number of distinct project
identifiers appearing among those rows. -/
theorem check_delays_and_count_spec (rows : List Row) (now : DateTime)
    (hval : ∀ r ∈ rows, r.project_id.isSome) :
    (∀ r : Row, r ∈ check_delays rows now ↔
        r ∈ rows
        ∧ (∃ d, r.task_finish_date = some d ∧ DateTime.ltb d now = true)
        ∧ r.task_status ≠ some doneStatus)
    ∧ get_delayed_projects_count rows now
        = ((check_delays rows now).filterMap Row.project_id).dedup.length := by
  constructor
  · intro r
    rw [check_delays, List.mem_filter]
    constructor
    · rintro ⟨hr, hc⟩
      rw [Bool.and_eq_true] at hc
      obtain ⟨h1, h2⟩ := hc
      refine ⟨hr, ?_, ?_⟩
      · cases hd : r.task_finish_date with
        | none => rw [hd] at h1; cases h1
        | some d => rw [hd] at h1; exact ⟨d, rfl, h1⟩
      · intro he
        rw [Bool.not_eq_true', beq_eq_false_iff_ne] at h2
        exact h2 he
    · rintro ⟨hr, ⟨d, hd, hlt⟩, hne⟩
      refine ⟨hr, ?_⟩
      rw [Bool.and_eq_true]
      refine ⟨?_, ?_⟩
      · rw [hd]; exact hlt
      · rw [Bool.not_eq_true', beq_eq_false_iff_ne]; exact hne
  · have hval' : ∀ r ∈ check_delays rows now, r.project_id.isSome :=
      fun r hr => hval r (List.mem_of_mem_filter hr)
    rw [get_delayed_projects_count, map_pid_eq_map_some _ hval',
      dedup_length_map_some]

/-- Witness for claim C1 at a concrete input: two delayed rows of one
project and one done row; the count is one. -/
theorem check_delays_and_count_spec_witness :
    (∀ r : Row, r ∈ check_delays
          [mkRow (some "P1") (some "T1") (some "作業中") (some ⟨2026, 9, 1⟩) none,
            mkRow (some "P1") (some "T2") (some "完了") (some ⟨2026, 9, 2⟩) none,
            mkRow (some "P1") (some "T3") none (some ⟨2026, 9, 3⟩) none]
          ⟨2026, 10, 12⟩ ↔
        r ∈ [mkRow (some "P1") (some "T1") (some "作業中") (some ⟨2026, 9, 1⟩) none,
            mkRow (some "P1") (some "T2") (some "完了") (some ⟨2026, 9, 2⟩) none,
            mkRow (some "P1") (some "T3") none (some ⟨2026, 9, 3⟩) none]
        ∧ (∃ d, r.task_finish_date = some d
            ∧ DateTime.ltb d ⟨2026, 10, 12⟩ = true)
        ∧ r.task_status ≠ some doneStatus)
    ∧ get_delayed_projects_count
        [mkRow (some "P1") (some "T1") (some "作業中") (some ⟨2026, 9, 1⟩) none,
          mkRow (some "P1") (some "T2") (some "完了") (some ⟨2026, 9, 2⟩) none,
          mkRow (some "P1") (some "T3") none (some ⟨2026, 9, 3⟩) none]
        ⟨2026, 10, 12⟩
        = ((check_delays
            [mkRow (some "P1") (some "T1") (some "作業中") (some ⟨2026, 9, 1⟩) none,
              mkRow (some "P1") (some "T2") (some "完了") (some ⟨2026, 9, 2⟩) none,
              mkRow (some "P1") (some "T3") none (some ⟨2026, 9, 3⟩) none]
            ⟨2026, 10, 12⟩).filterMap Row.project_id).dedup.length :=
  check_delays_and_count_spec _ _ (by decide)

/-- Claim C5 is false as stated: one delayed row whose milestone cell
is absent gives delayed-project count 1, while the aggregation's `.str`
accessor raises on the all-NaN float milestone column and the caught
exception yields zero project summaries, so the count exceeds the
summary count. -/
theorem delayed_projects_le_total_counterexample :
    get_delayed_projects_count
        [mkRow (some "P1") (some "T1") (some "作業中") (some ⟨2026, 9, 1⟩)
          none]
        ⟨2026, 10, 12⟩ = 1
    ∧ (calculate_progress
        ⟨[mkRow (some "P1") (some "T1") (some "作業中") (some ⟨2026, 9, 1⟩)
            none],
          true⟩).length = 0
    ∧ ¬(get_delayed_projects_count
          [mkRow (some "P1") (some "T1") (some "作業中") (some ⟨2026, 9, 1⟩)
            none]
          ⟨2026, 10, 12⟩
        ≤ (calculate_progress
            ⟨[mkRow (some "P1") (some "T1") (some "作業中")
                (some ⟨2026, 9, 1⟩) none],
              true⟩).length) := by
  decide

/-- Claim C5 (amended): for every unified row set conforming to the
data model (each row carries its project identifier) on which the
aggregation succeeds — the set is empty or carries at least one present
milestone cell — and every wall-clock `now`, the delayed-project count
is at most the number of project summaries that `calculate_progress`
produces; on a nonempty all-NaN milestone column the aggregation
degrades to an empty summary set and the inequality can fail. -/
theorem delayed_projects_le_total_projects (rows : List Row)
    (now : DateTime) (hval : ∀ r ∈ rows, r.project_id.isSome)
    (hmile : milestoneColumnAllNaN rows = false) :
    get_delayed_projects_count rows now
      ≤ (calculate_progress ⟨rows, true⟩).length := by
  have hlen : (calculate_progress ⟨rows, true⟩).length
      = (rows.filterMap Row.project_id).dedup.length := by
    rw [calculate_progress_eq_of_mile hmile, List.length_map]
    exact (List.perm_insertionSort _ _).length_eq
  have hval' : ∀ r ∈ check_delays rows now, r.project_id.isSome :=
    fun r hr => hval r (List.mem_of_mem_filter hr)
  rw [hlen, get_delayed_projects_count, map_pid_eq_map_some _ hval',
    dedup_length_map_some, ← List.card_toFinset, ← List.card_toFinset]
  apply Finset.card_le_card
  intro x hx
  rw [List.mem_toFinset, List.mem_filterMap] at hx ⊢
  obtain ⟨r, hr, hpr⟩ := hx
  exact ⟨r, List.mem_of_mem_filter hr, hpr⟩

/-- Witness for the amended claim C5 at a concrete input: one delayed
project out of two, one milestone cell present. -/
theorem delayed_projects_le_total_projects_witness :
    get_delayed_projects_count
        [mkRow (some "P1") (some "T1") (some "作業中") (some ⟨2026, 9, 1⟩) none,
          mkRow (some "P2") (some "T2") (some "完了") (some ⟨2026, 9, 2⟩)
            (some "○")]
        ⟨2026, 10, 12⟩
      ≤ (calculate_progress
          ⟨[mkRow (some "P1") (some "T1") (some "作業中") (some ⟨2026, 9, 1⟩) none,
              mkRow (some "P2") (some "T2") (some "完了") (some ⟨2026, 9, 2⟩)
                (some "○")],
            true⟩).length :=
  delayed_projects_le_total_projects _ _ (by decide) (by decide)

/-- The row filter of the monthly milestone counter in
`update_dashboard` (`callbacks.py` lines 68-71, identical in
`project_dashboard.py` 894-897): milestone marker equal to `○` and
finish-date month equal to the month number of `now`.  `.dt.month` of
NaT is NaN and never equals a month number, so a row without a finish
date never matches; only the month number is compared, never the
year. -/
def milestoneMonthMatch (r : Row) (now : DateTime) : Bool :=
  (r.task_milestone == some "○")
  && (match r.task_finish_date with
      | some d => d.month == now.month
      | none => false)

/-- The `milestone_projects` statistic of `update_dashboard`:
`len(df[...]['project_id'].unique())` over the rows matching
`milestoneMonthMatch`.  pandas `unique` collapses all NaN identifiers
into one value, hence the count is over the `Option String` cells. -/
def milestone_projects (rows : List Row) (now : DateTime) : Nat :=
  ((rows.filter (fun r => milestoneMonthMatch r now)).map
      Row.project_id).dedup.length

/-- Claim C8: for every unified row set conforming to the data model
(each row carries its project identifier), the monthly milestone
statistic is the number of distinct project identifiers having at least
one milestone-marked task whose finish date falls in the current
calendar month, where only the month number is compared — the year is
not checked. -/
theorem milestones_this_month_spec (rows : List Row) (now : DateTime)
    (hval : ∀ r ∈ rows, r.project_id.isSome) :
    milestone_projects rows now
      = ((rows.filter (fun r => milestoneMonthMatch r now)).filterMap
          Row.project_id).dedup.length
    ∧ ∀ k : String,
        k ∈ ((rows.filter (fun r => milestoneMonthMatch r now)).filterMap
            Row.project_id).dedup ↔
          ∃ r ∈ rows, r.project_id = some k
            ∧ r.task_milestone = some "○"
            ∧ ∃ d, r.task_finish_date = some d ∧ d.month = now.month := by
  constructor
  · have hval' : ∀ r ∈ rows.filter (fun r => milestoneMonthMatch r now),
        r.project_id.isSome :=
      fun r hr => hval r (List.mem_of_mem_filter hr)
    rw [milestone_projects, map_pid_eq_map_some _ hval',
      dedup_length_map_some]
  · intro k
    rw [List.mem_dedup, List.mem_filterMap]
    constructor
    · rintro ⟨r, hr, hpr⟩
      obtain ⟨hmem, hm⟩ := List.mem_filter.mp hr
      rw [milestoneMonthMatch, Bool.and_eq_true] at hm
      obtain ⟨h1, h2⟩ := hm
      refine ⟨r, hmem, hpr, ?_, ?_⟩
      · exact beq_iff_eq.mp h1
      · cases hd : r.task_finish_date with
        | none => rw [hd] at h2; simp at h2
        | some d =>
          simp only [hd] at h2
          exact ⟨d, rfl, beq_iff_eq.mp h2⟩
    · rintro ⟨r, hmem, hpr, hmile, d, hd, hmon⟩
      refine ⟨r, List.mem_filter.mpr ⟨hmem, ?_⟩, hpr⟩
      rw [milestoneMonthMatch, Bool.and_eq_true]
      refine ⟨?_, ?_⟩
      · simp [hmile]
      · simp [hd, hmon]

/-- Witness for claim C8 at a concrete input: one project with a
milestone finishing in October of 2020 is counted against a clock in
October of 2026 — same month number, different year. -/
theorem milestones_this_month_spec_witness :
    milestone_projects
        [mkRow (some "P1") (some "T1") (some "完了") (some ⟨2020, 10, 5⟩)
          (some "○")]
        ⟨2026, 10, 12⟩ = 1
    ∧ (milestone_projects
          [mkRow (some "P1") (some "T1") (some "完了") (some ⟨2020, 10, 5⟩)
            (some "○")]
          ⟨2026, 10, 12⟩
        = (([mkRow (some "P1") (some "T1") (some "完了")
              (some ⟨2020, 10, 5⟩) (some "○")].filter
              (fun r => milestoneMonthMatch r ⟨2026, 10, 12⟩)).filterMap
            Row.project_id).dedup.length) :=
  ⟨by decide,
    (milestones_this_month_spec _ _ (by decide)).1⟩

/-- Rounding to two decimals keeps a value of [0, 100] inside
[0, 100]. -/
theorem round2_bounds (q : ℚ) (h0 : 0 ≤ q) (h1 : q ≤ 100) :
    0 ≤ round2 q ∧ round2 q ≤ 100 := by
  have hr0 : (0 : ℤ) ≤ round (q * 100) := by
    rw [round_eq]
    exact Int.floor_nonneg.mpr (by linarith)
  have hr1 : round (q * 100) ≤ 10000 := by
    rw [round_eq]
    have hle : ⌊q * 100 + 1 / 2⌋ ≤ ⌊(10000 : ℚ) + 1 / 2⌋ :=
      Int.floor_le_floor (by linarith)
    have hval : ⌊(10000 : ℚ) + 1 / 2⌋ = 10000 := by
      rw [show ((10000 : ℚ) + 1 / 2) = ((10000 : ℤ) : ℚ) + 1 / 2 by norm_num,
        Int.floor_int_add]
      norm_num
    omega
  constructor
  · exact div_nonneg (by exact_mod_cast hr0) (by norm_num)
  · rw [round2, div_le_iff₀ (by norm_num : (0 : ℚ) < 100)]
    have hc : ((round (q * 100) : ℤ) : ℚ) ≤ (10000 : ℚ) := by
      exact_mod_cast hr1
    linarith

/-- Claim C4: for every unified row set conforming to the data model
(each row carries its project and task identifiers), every summary that
`calculate_progress` produces with a positive total-task count has its
progress percentage in the closed interval [0, 100]. -/
theorem progress_in_unit_interval (rows : List Row) (s : Summary)
    (hval : ∀ r ∈ rows, r.project_id.isSome ∧ r.task_id.isSome)
    (hs : s ∈ calculate_progress ⟨rows, true⟩)
    (ht : 0 < s.total_tasks) :
    0 ≤ s.progress ∧ s.progress ≤ 100 := by
  obtain ⟨k, hk, hsum⟩ := List.mem_map.mp (mem_calculate_progress hs)
  subst hsum
  set g := rows.filter (fun r => r.project_id == some k) with hg
  set t := (g.filterMap Row.task_id).length with hts
  set c := (g.filter (fun r => r.task_status == some doneStatus)).length
    with hcs
  have htpos : 0 < t := ht
  have hlen : t = g.length :=
    length_filterMap_of_isSome _ _
      (fun r hr => (hval r (List.mem_of_mem_filter hr)).2)
  have hcle : c ≤ t := by
    rw [hlen]
    exact List.length_filter_le _ g
  have h0 : 0 ≤ (c : ℚ) / (t : ℚ) * 100 := by positivity
  have h1 : (c : ℚ) / (t : ℚ) * 100 ≤ 100 := by
    have htq : (0 : ℚ) < (t : ℚ) := by exact_mod_cast htpos
    have hdiv : (c : ℚ) / (t : ℚ) ≤ 1 :=
      (div_le_one htq).mpr (by exact_mod_cast hcle)
    linarith
  exact round2_bounds ((c : ℚ) / (t : ℚ) * 100) h0 h1

/-- Witness for claim C4 at a concrete input: one project, one done
task out of two, progress 50 ∈ [0, 100]. -/
theorem progress_in_unit_interval_witness :
    0 ≤ (summarize
          [mkRow (some "P1") (some "T1") (some "完了") (some ⟨2025, 2, 1⟩)
            (some "○"),
            mkRow (some "P1") (some "T2") (some "着手中") (some ⟨2025, 3, 1⟩) none]
          "P1").progress
    ∧ (summarize
          [mkRow (some "P1") (some "T1") (some "完了") (some ⟨2025, 2, 1⟩)
            (some "○"),
            mkRow (some "P1") (some "T2") (some "着手中") (some ⟨2025, 3, 1⟩) none]
          "P1").progress ≤ 100 :=
  progress_in_unit_interval
    [mkRow (some "P1") (some "T1") (some "完了") (some ⟨2025, 2, 1⟩)
      (some "○"),
      mkRow (some "P1") (some "T2") (some "着手中") (some ⟨2025, 3, 1⟩) none]
    _ (by decide) (List.mem_map.mpr ⟨"P1", by decide, rfl⟩) (by decide)

/-- A "first" aggregation whose leading cell is present returns that
cell. -/
theorem firstNonNull_cons_of_isSome {α : Type} (x : Option α)
    (l : List (Option α)) (h : x.isSome) : firstNonNull (x :: l) = x := by
  obtain ⟨v, hv⟩ := Option.isSome_iff_exists.mp h
  rw [firstNonNull, hv, List.filterMap_cons]
  simp

/-- Rows driving the claim C6 counterexample: one project whose first
row in input order has no project name, process, line or paths, and
whose second row has all of them and a milestone marker, so the
milestone column is object dtype and the aggregation runs. -/
def firstFieldRows : List Row :=
  [{ project_id := some "P1", project_name := none, process := none,
     line := none, task_id := some "T1", task_name := some "t",
     task_start_date := some ⟨2025, 1, 1⟩,
     task_finish_date := some ⟨2025, 2, 1⟩,
     task_status := some "完了", task_milestone := none,
     project_path := none, ganttchart_path := none },
   { project_id := some "P1", project_name := some "A",
     process := some "dev", line := some "L1", task_id := some "T2",
     task_name := some "u", task_start_date := some ⟨2025, 1, 2⟩,
     task_finish_date := some ⟨2025, 2, 2⟩,
     task_status := some "完了", task_milestone := some "○",
     project_path := some "/p", ganttchart_path := some "/g" }]

/-- Claim C6 is false as stated: at this input the group's first row in
input order carries no project name, yet the summary's project-name
field is the later row's value "A" — pandas `agg('first')` takes the
first non-null cell of the group, not the first row. -/
theorem first_fields_counterexample :
    firstFieldRows.map Row.project_id = [some "P1", some "P1"]
    ∧ (firstFieldRows.filter
        (fun r => r.project_id == some "P1")).head?.map Row.project_name
      = some none
    ∧ (calculate_progress ⟨firstFieldRows, true⟩).map Summary.project_name
        = [some "A"]
    ∧ (calculate_progress ⟨firstFieldRows, true⟩).map Summary.project_name
        ≠ [none]
    ∧ (calculate_progress ⟨firstFieldRows, true⟩).map Summary.project_path
        = [some "/p"] := by
  decide

/-- Claim C6 (amended): the "first" summary fields are the first
non-absent cell of the group in input order; in particular, whenever
the first row encountered in input order for the group has those cells
present, the summary fields equal that first row's values. -/
theorem first_fields_from_first_row_when_present (rows : List Row)
    (s : Summary) (r0 : Row)
    (hs : s ∈ calculate_progress ⟨rows, true⟩)
    (h0 : (rows.filter
        (fun r => r.project_id == some s.project_id)).head? = some r0)
    (hname : r0.project_name.isSome) (hproc : r0.process.isSome)
    (hline : r0.line.isSome) (hpp : r0.project_path.isSome)
    (hgp : r0.ganttchart_path.isSome) :
    s.project_name = r0.project_name ∧ s.process = r0.process
    ∧ s.line = r0.line ∧ s.project_path = r0.project_path
    ∧ s.ganttchart_path = r0.ganttchart_path := by
  obtain ⟨k, hk, hsum⟩ := List.mem_map.mp (mem_calculate_progress hs)
  subst hsum
  have hk' : (summarize rows k).project_id = k := rfl
  rw [hk'] at h0
  cases hg : rows.filter (fun r => r.project_id == some k) with
  | nil => rw [hg] at h0; cases h0
  | cons a t =>
    rw [hg, List.head?_cons] at h0
    have ha : a = r0 := Option.some.inj h0
    subst ha
    have hfield : ∀ f : Row → Option String, (f a).isSome →
        firstNonNull ((rows.filter
            (fun r => r.project_id == some k)).map f) = f a := by
      intro f hf
      rw [hg, List.map_cons]
      exact firstNonNull_cons_of_isSome _ _ hf
    exact ⟨hfield Row.project_name hname, hfield Row.process hproc,
      hfield Row.line hline, hfield Row.project_path hpp,
      hfield Row.ganttchart_path hgp⟩

/-- Witness for the amended claim C6 at a concrete input whose leading
group row has every "first" field present. -/
theorem first_fields_from_first_row_witness :
    (summarize
        [mkRow (some "P1") (some "T1") (some "完了") (some ⟨2025, 2, 1⟩) (some "○")]
        "P1").project_name
      = (mkRow (some "P1") (some "T1") (some "完了") (some ⟨2025, 2, 1⟩)
          (some "○")).project_name
    ∧ (summarize
        [mkRow (some "P1") (some "T1") (some "完了") (some ⟨2025, 2, 1⟩) (some "○")]
        "P1").process
      = (mkRow (some "P1") (some "T1") (some "完了") (some ⟨2025, 2, 1⟩)
          (some "○")).process
    ∧ (summarize
        [mkRow (some "P1") (some "T1") (some "完了") (some ⟨2025, 2, 1⟩) (some "○")]
        "P1").line
      = (mkRow (some "P1") (some "T1") (some "完了") (some ⟨2025, 2, 1⟩)
          (some "○")).line
    ∧ (summarize
        [mkRow (some "P1") (some "T1") (some "完了") (some ⟨2025, 2, 1⟩) (some "○")]
        "P1").project_path
      = (mkRow (some "P1") (some "T1") (some "完了") (some ⟨2025, 2, 1⟩)
          (some "○")).project_path
    ∧ (summarize
        [mkRow (some "P1") (some "T1") (some "完了") (some ⟨2025, 2, 1⟩) (some "○")]
        "P1").ganttchart_path
      = (mkRow (some "P1") (some "T1") (some "完了") (some ⟨2025, 2, 1⟩)
          (some "○")).ganttchart_path :=
  first_fields_from_first_row_when_present
    [mkRow (some "P1") (some "T1") (some "完了") (some ⟨2025, 2, 1⟩)
      (some "○")]
    _ _ (List.mem_map.mpr ⟨"P1", by decide, rfl⟩) (by decide)
    (by decide) (by decide) (by decide) (by decide) (by decide)

/-- Abstract view of the file system consulted by the path validator:
path normalization (`Path(path).resolve()`), directory test
(`os.path.isdir`), existence (`os.path.exists`) and read permission
(`os.access(..., os.R_OK)`). -/
structure FS where
  resolve : String → String
  isDir : String → Bool
  pathExists : String → Bool
  readOk : String → Bool

/-- Extension allow-list of `validate_file_path`
(`project_dashboard.py` lines 205-209). -/
def valid_extensions : List String :=
  [".xlsx", ".xls", ".xlsm", ".xltx", ".xltm",
   ".xml", ".mpp", ".mpt", ".pdf", ".html", ".htm", ".csv"]

/-- Character denylist of `validate_file_path`
(`project_dashboard.py` line 219). -/
def invalid_path_chars : List Char := ['<', '>', '|', '"', '?', '*']

/-- `validate_file_path(path, allow_directories)` from
`project_dashboard.py` lines 170-242, with the checks in source order:
empty/NaN rejection, normalization, the directory early return (which
skips every later check), the extension allow-list on the lower-cased
path, the character denylist, existence, read permission.  Any internal
error is caught and becomes `None`, so the function is total. -/
def validate_file_path (fs : FS) (path : Option String)
    (allow_directories : Bool) : Option String :=
  match path with
  | none => none
  | some p =>
    if p = "" then none
    else
      let normalized := fs.resolve p
      if fs.isDir normalized then
        if !allow_directories then none else some normalized
      else if !(valid_extensions.any
          (fun ext => strEndsWith (strToLower normalized) ext)) then none
      else if invalid_path_chars.any
          (fun c => strContains normalized c) then none
      else if !(fs.pathExists normalized) then none
      else if !(fs.readOk normalized) then none
      else some normalized

/-- A file system holding one directory whose name carries a denied
character and whose read permission is off. -/
def fsDir : FS :=
  { resolve := fun p => p
    isDir := fun p => p == "p?d"
    pathExists := fun p => p == "p?d"
    readOk := fun _ => false }

/-- Claim C9 is false as stated: the validator accepts the directory
`p?d` although its name carries the denied character `?` and no read
permission is held on it — the directory early return precedes the
character, existence and permission checks. -/
theorem validate_path_counterexample :
    validate_file_path fsDir (some "p?d") true = some "p?d"
    ∧ strContains "p?d" '?' = true
    ∧ fsDir.readOk "p?d" = false := by
  decide

/-- Claim C9 (amended): whenever `validate_file_path` returns a path,
a directory is returned only when directories are allowed, and every
non-directory result carries none of the denied characters, has an
allow-listed extension, exists, and read permission is held on it; for
a directory result only the directory policy is guaranteed, the
character, existence and permission checks being skipped. -/
theorem validate_path_guarantees (fs : FS) (path : Option String)
    (allow_directories : Bool) (q : String)
    (h : validate_file_path fs path allow_directories = some q) :
    (fs.isDir q = true → allow_directories = true)
    ∧ (fs.isDir q = false →
        (∀ c ∈ invalid_path_chars, strContains q c = false)
        ∧ valid_extensions.any
            (fun ext => strEndsWith (strToLower q) ext) = true
        ∧ fs.pathExists q = true
        ∧ fs.readOk q = true) := by
  cases path with
  | none => cases h
  | some p =>
    simp only [validate_file_path] at h
    by_cases h1 : p = ""
    · rw [if_pos h1] at h; cases h
    rw [if_neg h1] at h
    by_cases h2 : fs.isDir (fs.resolve p) = true
    · rw [if_pos h2] at h
      by_cases h3 : (!allow_directories) = true
      · rw [if_pos h3] at h; cases h
      · rw [if_neg h3] at h
        simp only [Bool.not_eq_true', Bool.not_eq_false] at h3
        have hq : fs.resolve p = q := Option.some.inj h
        subst hq
        refine ⟨fun _ => h3, fun hfalse => ?_⟩
        rw [hfalse] at h2; cases h2
    · rw [if_neg h2] at h
      by_cases h4 : (!(valid_extensions.any
          (fun ext => strEndsWith (strToLower (fs.resolve p)) ext))) = true
      · rw [if_pos h4] at h; cases h
      rw [if_neg h4] at h
      simp only [Bool.not_eq_true', Bool.not_eq_false] at h4
      by_cases h5 : invalid_path_chars.any
          (fun c => strContains (fs.resolve p) c) = true
      · rw [if_pos h5] at h; cases h
      rw [if_neg h5] at h
      simp only [Bool.not_eq_true] at h5
      by_cases h6 : (!(fs.pathExists (fs.resolve p))) = true
      · rw [if_pos h6] at h; cases h
      rw [if_neg h6] at h
      simp only [Bool.not_eq_true', Bool.not_eq_false] at h6
      by_cases h7 : (!(fs.readOk (fs.resolve p))) = true
      · rw [if_pos h7] at h; cases h
      rw [if_neg h7] at h
      simp only [Bool.not_eq_true', Bool.not_eq_false] at h7
      have hq : fs.resolve p = q := Option.some.inj h
      subst hq
      refine ⟨fun hdir => absurd hdir h2, fun _ => ⟨?_, h4, h6, h7⟩⟩
      intro c hc
      rw [List.any_eq_false] at h5
      simpa using h5 c hc

/-- A file system holding one readable csv file. -/
def fsCsv : FS :=
  { resolve := fun p => p
    isDir := fun _ => false
    pathExists := fun p => p == "/data/dashboard.csv"
    readOk := fun p => p == "/data/dashboard.csv" }

/-- Witness for the amended claim C9 at a concrete input: a readable
csv file passes and every non-directory guarantee holds for it. -/
theorem validate_path_guarantees_witness :
    (fsCsv.isDir "/data/dashboard.csv" = true → (false : Bool) = true)
    ∧ (fsCsv.isDir "/data/dashboard.csv" = false →
        (∀ c ∈ invalid_path_chars,
          strContains "/data/dashboard.csv" c = false)
        ∧ valid_extensions.any
            (fun ext => strEndsWith (strToLower "/data/dashboard.csv") ext)
            = true
        ∧ fsCsv.pathExists "/data/dashboard.csv" = true
        ∧ fsCsv.readOk "/data/dashboard.csv" = true) :=
  validate_path_guarantees fsCsv (some "/data/dashboard.csv") false
    "/data/dashboard.csv" (by decide)

/-- One row of the task-level CSV (`dashboard.csv`), before any join.
Dates are modelled after the `pd.to_datetime(..., errors='coerce')`
coercion; no claim below distinguishes a raw date string from its
parsed value. -/
structure TaskRow where
  project_id : Option String
  project_name : Option String
  process : Option String
  line : Option String
  task_id : Option String
  task_name : Option String
  task_start_date : Option DateTime
  task_finish_date : Option DateTime
  task_status : Option String
  task_milestone : Option String
deriving DecidableEq, Repr

/-- A task row viewed as a unified row without the project-level path
columns. -/
def TaskRow.toRow (t : TaskRow) : Row :=
  { project_id := t.project_id, project_name := t.project_name,
    process := t.process, line := t.line, task_id := t.task_id,
    task_name := t.task_name, task_start_date := t.task_start_date,
    task_finish_date := t.task_finish_date,
    task_status := t.task_status, task_milestone := t.task_milestone,
    project_path := none, ganttchart_path := none }

/-- One row of the project-level CSV (`projects.csv`). -/
structure ProjRow where
  project_id : Option String
  project_path : Option String
  ganttchart_path : Option String
deriving DecidableEq, Repr

/-- The project-level CSV as read: which of the expected columns
(`project_id`, `project_path`, `ganttchart_path`) are present, and the
rows.  A `ProjRow` field whose column is absent is meaningless and
ignored by the loader. -/
structure ProjectsFile where
  hasProjectIdColumn : Bool
  hasProjectPathColumn : Bool
  hasGanttColumn : Bool
  rows : List ProjRow
deriving DecidableEq, Repr

/-- The loader's input: the task-level CSV already read, and the
project-level CSV, `none` when `projects.csv` does not exist. -/
structure LoadInput where
  taskRows : List TaskRow
  projectsFile : Option ProjectsFile
deriving DecidableEq, Repr

/-- `pd.merge(df, projects_df[...], on='project_id', how='left')` for
one task row: one output row per matching project row, the bare task
row when no match exists; a NaN key matches nothing. -/
def mergeOne (projs : List ProjRow) (t : TaskRow) : List Row :=
  match t.project_id with
  | none => [t.toRow]
  | some k =>
    match projs.filter (fun p => p.project_id == some k) with
    | [] => [t.toRow]
    | ms => ms.map (fun p =>
        { t.toRow with project_path := p.project_path,
                       ganttchart_path := p.ganttchart_path })

/-- `load_and_process_data(dashboard_file_path)` from
`data_processing.py` lines 22-79 (identical in `project_dashboard.py`
370-420): if `projects.csv` does not exist, or lacks the
`ganttchart_path` column, the task-level frame is returned unchanged
(these early returns precede the join, so the path columns are absent
and nothing is raised); if the chart column is present but the
`project_id` or `project_path` column is missing, the column selection
`projects_df[['project_id', 'project_path', 'ganttchart_path']]` raises
a `KeyError` that the outer `except` turns into an empty DataFrame —
the task rows are lost; otherwise each chart path is run through the
validator (NaN becomes `None`) and the frames are left-joined on the
project identifier.  Every failure is caught, so the function is
total. -/
def load_and_process_data (fs : FS) (inp : LoadInput) : Frame :=
  match inp.projectsFile with
  | none => ⟨inp.taskRows.map TaskRow.toRow, false⟩
  | some pf =>
    if !pf.hasGanttColumn then ⟨inp.taskRows.map TaskRow.toRow, false⟩
    else if !(pf.hasProjectIdColumn && pf.hasProjectPathColumn) then
      ⟨[], false⟩
    else
      let projs := pf.rows.map (fun p =>
        { p with ganttchart_path :=
            match p.ganttchart_path with
            | none => none
            | some x => validate_file_path fs (some x) true })
      ⟨inp.taskRows.flatMap (mergeOne projs), true⟩

/-- Test fixture: one task row and an absent project-level file. -/
def loadFixture : LoadInput :=
  { taskRows :=
      [{ project_id := some "P1", project_name := some "alpha",
         process := some "dev", line := some "L1", task_id := some "T1",
         task_name := some "t", task_start_date := some ⟨2025, 1, 1⟩,
         task_finish_date := some ⟨2025, 2, 1⟩,
         task_status := some "完了", task_milestone := none }],
    projectsFile := none }

/-- Test fixture: the same task row, but a project-level file that has
the chart-path column and lacks the `project_path` column. -/
def loadFixtureNoPath : LoadInput :=
  { taskRows := loadFixture.taskRows,
    projectsFile := some
      { hasProjectIdColumn := true, hasProjectPathColumn := false,
        hasGanttColumn := true,
        rows := [{ project_id := some "P1", project_path := none,
                   ganttchart_path := some "/g" }] } }

/-- Claim C7 is false as stated: with a project-level file that has the
chart-path column but lacks the `project_path` column, the column
selection raises, the outer `except` returns an empty DataFrame, and
the loader loses the task rows instead of returning them unjoined. -/
theorem loader_missing_path_column_counterexample :
    (load_and_process_data fsCsv loadFixtureNoPath).rows = []
    ∧ loadFixtureNoPath.taskRows.map TaskRow.toRow ≠ []
    ∧ (load_and_process_data fsCsv loadFixtureNoPath).rows
        ≠ loadFixtureNoPath.taskRows.map TaskRow.toRow := by
  refine ⟨rfl, by decide, ?_⟩
  rw [show (load_and_process_data fsCsv loadFixtureNoPath).rows = []
    from rfl]
  decide

/-- Claim C7 (amended): when the project-level file is absent or lacks
the chart-path column, the loader returns the task-level rows unjoined
and raises nothing (the result is an ordinary frame), the chart path is
absent from every returned row, and every downstream summary has an
absent chart path — the aggregation of an unjoined frame is the empty
summary list (its column access fails inside the caught exception), so
that absence holds over an empty set of summaries.  When the
project-level file has the chart-path column but lacks the project-path
or project-identifier column, the loader instead catches the failing
column selection and returns an empty frame, losing the task rows. -/
theorem loader_aux_columns (fs : FS) (inp : LoadInput) :
    ((inp.projectsFile = none
        ∨ ∃ pf, inp.projectsFile = some pf ∧ pf.hasGanttColumn = false) →
      (load_and_process_data fs inp).rows = inp.taskRows.map TaskRow.toRow
      ∧ (load_and_process_data fs inp).joined = false
      ∧ (∀ r ∈ (load_and_process_data fs inp).rows,
          r.ganttchart_path = none)
      ∧ ∀ s ∈ calculate_progress (load_and_process_data fs inp),
          s.ganttchart_path = none)
    ∧ ∀ pf, inp.projectsFile = some pf → pf.hasGanttColumn = true →
        (pf.hasProjectIdColumn && pf.hasProjectPathColumn) = false →
        load_and_process_data fs inp = ⟨[], false⟩ := by
  constructor
  · intro h
    have hres : load_and_process_data fs inp
        = ⟨inp.taskRows.map TaskRow.toRow, false⟩ := by
      rcases h with h | ⟨pf, hpf, hcol⟩
      · simp [load_and_process_data, h]
      · simp [load_and_process_data, hpf, hcol]
    rw [hres]
    refine ⟨rfl, rfl, ?_, ?_⟩
    · intro r hr
      obtain ⟨t, ht, hrt⟩ := List.mem_map.mp hr
      rw [← hrt]
      rfl
    · intro s hs
      simp [calculate_progress] at hs
  · intro pf hpf hg hcols
    simp [load_and_process_data, hpf, hg, hcols]

/-- Witness for the amended claim C7 at two concrete inputs: the
project-level file absent, and the project-level file lacking the
`project_path` column. -/
theorem loader_aux_columns_witness :
    ((load_and_process_data fsCsv loadFixture).rows
        = loadFixture.taskRows.map TaskRow.toRow
      ∧ (load_and_process_data fsCsv loadFixture).joined = false
      ∧ (∀ r ∈ (load_and_process_data fsCsv loadFixture).rows,
          r.ganttchart_path = none)
      ∧ ∀ s ∈ calculate_progress (load_and_process_data fsCsv loadFixture),
          s.ganttchart_path = none)
    ∧ load_and_process_data fsCsv loadFixtureNoPath = ⟨[], false⟩ :=
  ⟨(loader_aux_columns fsCsv loadFixture).1 (Or.inl rfl),
    (loader_aux_columns fsCsv loadFixtureNoPath).2 _ rfl rfl rfl⟩

end ProjectDashboard
